import Mathlib

/-!
Shallow embedding of the AR.IO gateway monitoring bot's alert evaluation and
notification engine, translated from the TypeScript source:

* src/alerts/telegram.ts — the alert dispatcher (cooldown deduplication, mute
  registry, alert history) and the per-kind send functions.
* the main monitoring loop — checkResources (sustained CPU, memory, disk,
  response time, block-sync lag, ArNS cache, counter-reset-safe error rate)
  and checkObserver (epoch transitions, observer report deadlines,
  selection history, observer weight).

Modelling conventions: JS timestamps and counters are Int (ms epoch); metric
gauges and thresholds are ℚ (JS numbers, exact here); JS Map<string, number>
`lastAlertTime` becomes a function from structured keys to Option Int;
Map<string, number> `categoryMutes` (which the code iterates) becomes an
association list.  JS falsiness of 0 / the empty string is modelled
explicitly where the source relies on it.
-/

namespace Ario

/-- Alert severity, from the literal union 'info' | 'warning' | 'critical'. -/
inductive Sev
  | info
  | warning
  | critical
deriving DecidableEq, Repr

/-- The string the code interpolates for a severity value. -/
def sevStr : Sev → String
  | Sev.info => "info"
  | Sev.warning => "warning"
  | Sev.critical => "critical"

/-- Resource alert kinds, from sendResourceAlert's literal union. -/
inductive RType
  | cpu
  | memory
  | disk
  | response_time
  | latency
deriving DecidableEq, Repr

/-- Performance alert kinds, from sendPerformanceAlert's literal union. -/
inductive PType
  | block_sync
  | arns_cache
  | error_rate
deriving DecidableEq, Repr

/-- Observer alert kinds, from sendObserverAlert's literal union. -/
inductive OType
  | report_failed
  | not_selected
  | low_weight
deriving DecidableEq, Repr

/-- Structured model of the string keys stored in `lastAlertTime`.  The key
formats in the source are mutually non-overlapping and injective per scheme:
generic alerts use the string (sevStr type) ++ ":" ++ message, gateway-change
alerts "gateway:" ++ eventType ++ ":" ++ address, ArNS-change alerts
"arns:" ++ changeType ++ ":" ++ name, resource alerts
"resource:" ++ rtype ++ ":" ++ toString threshold (the threshold value is part
of the key), performance alerts "performance:" ++ ptype (no threshold), and
observer alerts "observer:" ++ otype. -/
inductive AlertKey
  | generic (sev : String) (message : String)
  | gateway (event : String) (address : String)
  | arns (changeType : String) (name : String)
  | resource (rtype : RType) (threshold : ℚ)
  | performance (ptype : PType)
  | observer (otype : OType)
deriving DecidableEq, Repr

/-- One entry of the bounded in-memory alert history (alertHistory array). -/
structure AlertHistoryEntry where
  timestamp : Int
  type : String
  message : String
  severity : String
deriving DecidableEq, Repr

/-- The dispatcher-relevant mutable state of the TelegramBot class:
lastAlertTime, alertHistory, isMuted, muteUntil, categoryMutes. -/
structure BotState where
  lastAlertTime : AlertKey → Option Int
  alertHistory : List AlertHistoryEntry
  isMuted : Bool
  muteUntil : Option Int
  categoryMutes : List (String × Int)

/-- Functional update of the lastAlertTime map (Map.prototype.set). -/
def mapSet (m : AlertKey → Option Int) (k : AlertKey) (v : Int) : AlertKey → Option Int :=
  fun k2 => if k2 = k then some v else m k2

/-- Lookup in the category-mute association list (Map.prototype.get). -/
def mapFind (m : List (String × Int)) (c : String) : Option Int :=
  (m.find? (fun p => p.1 = c)).map (fun p => p.2)

/-- The fresh TelegramBot state: empty maps, empty history, unmuted. -/
def initialBotState : BotState :=
  { lastAlertTime := fun _ => none
    alertHistory := []
    isMuted := false
    muteUntil := none
    categoryMutes := [] }

/-- The truthiness-aware global-mute test `this.muteUntil && now < this.muteUntil`
(a muteUntil of 0 is falsy in JS and acts as no mute). -/
def muteActive (muteUntil : Option Int) (now : Int) : Bool :=
  match muteUntil with
  | some m => m ≠ 0 && now < m
  | none => false

/-- The history entry pushed by sendAlert: timestamp now, type is the first
line of the message (falling back to the severity string when that line is
empty, message.split('\n')[0] || type), the full message, and the severity. -/
def historyEntry (now : Int) (sev : Sev) (message : String) : AlertHistoryEntry :=
  let first := (message.splitOn "\n").headD ""
  { timestamp := now
    type := if first = "" then sevStr sev else first
    message := message
    severity := sevStr sev }

/-- Trim step of the alert history: keep only the last 100 alerts by shifting
the oldest entry off the front when the length exceeds 100. -/
def trimHistory (l : List AlertHistoryEntry) : List AlertHistoryEntry :=
  if l.length > 100 then l.tail else l

/-- sendAlert(type, message, category?): clears an expired global mute and
expired category mutes, returns early inside the cooldown window (without
touching the history), otherwise appends to the bounded history, records the
send time under the (severity, message) key, and suppresses the actual send
when globally muted or when the alert's category is muted.  Returns the new
state and whether the notification channel was invoked.  The JS guards
`this.muteUntil && ...` and `category && ...` are truthiness tests, so a
timestamp of 0 or an empty-string category behaves as absent. -/
def sendAlert (cooldown now : Int) (sev : Sev) (message : String)
    (category : Option String) (s : BotState) : BotState × Bool :=
  let alertKey := AlertKey.generic (sevStr sev) message
  let lastAlert := (s.lastAlertTime alertKey).getD 0
  let globalMuteExpired : Bool :=
    match s.muteUntil with
    | some m => m ≠ 0 ∧ now ≥ m
    | none => false
  let s2 : BotState :=
    { s with
      isMuted := if globalMuteExpired then false else s.isMuted
      muteUntil := if globalMuteExpired then none else s.muteUntil
      categoryMutes := s.categoryMutes.filter (fun p => now < p.2) }
  if now - lastAlert < cooldown then
    (s2, false)
  else
    let s3 : BotState :=
      { s2 with
        alertHistory := trimHistory (s2.alertHistory ++ [historyEntry now sev message])
        lastAlertTime := mapSet s2.lastAlertTime alertKey now }
    if s3.isMuted && muteActive s3.muteUntil now then
      (s3, false)
    else
      match category with
      | some c =>
        if c ≠ "" ∧ (mapFind s3.categoryMutes c).isSome then
          if now < (mapFind s3.categoryMutes c).getD 0 then (s3, false) else (s3, true)
        else (s3, true)
      | none => (s3, true)

/-- The severity headline of a resource alert: CRITICAL when the current
value is at least 1.2 times the threshold, WARNING otherwise
(value >= threshold * 1.2 in the source). -/
def resourceSeverityText (value threshold : ℚ) : String :=
  if value ≥ threshold * 1.2 then "CRITICAL" else "WARNING"

/-- The message produced by a resource alert that survived cooldown. -/
structure ResourceMsg where
  severityText : String
  value : ℚ
  threshold : ℚ
deriving DecidableEq, Repr

/-- sendResourceAlert(type, value, threshold, duration?): dedup key is
resource:type:threshold (the threshold crossed, not the current value);
returns early within the configured cooldown; otherwise records the send time
and sends unconditionally — this function performs no mute checks and never
touches the alert history. -/
def sendResourceAlert (cooldown now : Int) (rtype : RType) (value threshold : ℚ)
    (s : BotState) : BotState × Option ResourceMsg :=
  let alertKey := AlertKey.resource rtype threshold
  let lastAlert := (s.lastAlertTime alertKey).getD 0
  if now - lastAlert < cooldown then
    (s, none)
  else
    ({ s with lastAlertTime := mapSet s.lastAlertTime alertKey now },
     some { severityText := resourceSeverityText value threshold
            value := value
            threshold := threshold })

/-- The message produced by a performance alert that survived cooldown; its
severity headline is the fixed string the source always uses. -/
structure PerfMsg where
  severityText : String
  current : ℚ
  threshold : ℚ
deriving DecidableEq, Repr

/-- sendPerformanceAlert(type, {current, threshold, additional?}): dedup key
is performance:type — the threshold is NOT part of the key; returns early
within the configured cooldown; otherwise records the send time and sends a
message whose severity headline is always 'PERFORMANCE DEGRADATION'.  No mute
checks, no history write. -/
def sendPerformanceAlert (cooldown now : Int) (ptype : PType) (current threshold : ℚ)
    (s : BotState) : BotState × Option PerfMsg :=
  let alertKey := AlertKey.performance ptype
  let lastAlert := (s.lastAlertTime alertKey).getD 0
  if now - lastAlert < cooldown then
    (s, none)
  else
    ({ s with lastAlertTime := mapSet s.lastAlertTime alertKey now },
     some { severityText := "PERFORMANCE DEGRADATION"
            current := current
            threshold := threshold })

/-- sendObserverAlert(type, details): dedup key is observer:type, governed by
the configured cooldown; no mute checks, no history write. -/
def sendObserverAlert (cooldown now : Int) (otype : OType) (s : BotState) :
    BotState × Bool :=
  let alertKey := AlertKey.observer otype
  let lastAlert := (s.lastAlertTime alertKey).getD 0
  if now - lastAlert < cooldown then
    (s, false)
  else
    ({ s with lastAlertTime := mapSet s.lastAlertTime alertKey now }, true)

/-- sendGatewayChangeAlert(change): dedup key is
gateway:eventType:address, with a hardcoded 5-minute window
(now - lastAlert < 300000), independent of the configured cooldown.  The
eventType is derived upstream from change.type and the status-change entry;
it is taken as an input here. -/
def sendGatewayChangeAlert (now : Int) (eventType address : String) (s : BotState) :
    BotState × Bool :=
  let alertKey := AlertKey.gateway eventType address
  let lastAlert := (s.lastAlertTime alertKey).getD 0
  if now - lastAlert < 300000 then
    (s, false)
  else
    ({ s with lastAlertTime := mapSet s.lastAlertTime alertKey now }, true)

/-- sendArnsChangeAlert(change): dedup key is arns:type:name, also with the
hardcoded 5-minute window (now - lastAlert < 300000). -/
def sendArnsChangeAlert (now : Int) (changeType name : String) (s : BotState) :
    BotState × Bool :=
  let alertKey := AlertKey.arns changeType name
  let lastAlert := (s.lastAlertTime alertKey).getD 0
  if now - lastAlert < 300000 then
    (s, false)
  else
    ({ s with lastAlertTime := mapSet s.lastAlertTime alertKey now }, true)

/-! ## Resource monitoring (checkResources in the main monitoring loop) -/

/-- One sample of the sustained-CPU window (cpuHistory). -/
structure CpuSample where
  value : ℚ
  timestamp : Int
deriving DecidableEq, Repr

/-- One sample of the smoothed error-rate window (errorRateHistory):
per-interval error and request deltas with the sample time. -/
structure ErrSample where
  errors : ℚ
  requests : ℚ
  timestamp : Int
deriving DecidableEq, Repr

/-- The previousMetrics snapshot the loop stores after every resource check. -/
structure PrevMetrics where
  timestamp : Int
  blockHeight : Option ℚ
  arnsResolutions : Option ℚ
  errors : Option ℚ
  totalRequests : Option ℚ
deriving DecidableEq, Repr

/-- The fields of a metrics fetch consumed by checkResources; a missing field
(provider did not report it) is none. -/
structure Metrics where
  cpuUsagePercent : Option ℚ
  memoryUsagePercent : Option ℚ
  diskUsagePercent : Option ℚ
  averageResponseTimeMs : Option ℚ
  heightDifference : Option ℚ
  lastHeightImported : Option ℚ
  currentNetworkHeight : Option ℚ
  arnsCacheHitRate : Option ℚ
  arnsErrors : Option ℚ
  httpRequestsTotal : Option ℚ
  arnsResolutions : Option ℚ
deriving DecidableEq, Repr

/-- The runtime-configurable alert thresholds read by the two check loops. -/
structure AlertsConfig where
  cpuThreshold : ℚ
  cpuDurationMinutes : Int
  memoryThreshold : ℚ
  diskThreshold : ℚ
  responseTimeThreshold : ℚ
  blockSyncLagThreshold : ℚ
  arnsCacheHitRateThreshold : ℚ
  errorRateThreshold : ℚ
  errorRateMinRequests : ℚ
  notSelectedEpochsThreshold : Nat
  lowObserverWeightThreshold : ℚ
deriving Repr

/-- The in-memory state the resource check mutates: the CPU window, the
error-rate window and the previous counters snapshot. -/
structure ResourceMonState where
  cpuHistory : List CpuSample
  errorRateHistory : List ErrSample
  previousMetrics : Option PrevMetrics
deriving DecidableEq, Repr

/-- A call checkResources makes into the telegram dispatcher: either
sendResourceAlert(rtype, value, threshold, duration?) or
sendPerformanceAlert(ptype, {current, threshold}). -/
inductive ResourceAction
  | resourceAlert (rtype : RType) (value : ℚ) (threshold : ℚ) (duration : Option Int)
  | performanceAlert (ptype : PType) (current : ℚ) (threshold : ℚ)
deriving DecidableEq, Repr

/-- The sustained-CPU section of checkResources: push the fresh sample, prune
the window to the last 10 minutes (strictly newer than now - 10min), take the
sub-window covering cpuDurationMinutes, and fire only when the sub-window has
at least cpuDurationMinutes samples, all of them at or above the threshold,
and the current sample itself is at or above the threshold. -/
def cpuSection (cfg : AlertsConfig) (now : Int) (cpuUsagePercent : Option ℚ)
    (cpuHistory : List CpuSample) : List CpuSample × List ResourceAction :=
  match cpuUsagePercent with
  | none => (cpuHistory, [])
  | some cpu =>
    let pushed : List CpuSample := cpuHistory ++ [{ value := cpu, timestamp := now }]
    let tenMinutesAgo := now - 10 * 60 * 1000
    let hist := pushed.filter (fun h => h.timestamp > tenMinutesAgo)
    let durationMs := cfg.cpuDurationMinutes * 60 * 1000
    let cutoffTime := now - durationMs
    let recentHighCpu := hist.filter
      (fun h => h.timestamp ≥ cutoffTime ∧ h.value ≥ cfg.cpuThreshold)
    let samplesInWindow := hist.filter (fun h => h.timestamp ≥ cutoffTime)
    if Int.ofNat samplesInWindow.length ≥ cfg.cpuDurationMinutes ∧
        recentHighCpu.length = samplesInWindow.length ∧
        cpu ≥ cfg.cpuThreshold then
      (hist, [ResourceAction.resourceAlert RType.cpu cpu cfg.cpuThreshold
                (some cfg.cpuDurationMinutes)])
    else
      (hist, [])

/-- The memory section: stateless instantaneous comparison. -/
def memorySection (cfg : AlertsConfig) (memoryUsagePercent : Option ℚ) :
    List ResourceAction :=
  match memoryUsagePercent with
  | some m =>
    if m ≥ cfg.memoryThreshold then
      [ResourceAction.resourceAlert RType.memory m cfg.memoryThreshold none]
    else []
  | none => []

/-- The disk section: stateless instantaneous comparison. -/
def diskSection (cfg : AlertsConfig) (diskUsagePercent : Option ℚ) :
    List ResourceAction :=
  match diskUsagePercent with
  | some d =>
    if d ≥ cfg.diskThreshold then
      [ResourceAction.resourceAlert RType.disk d cfg.diskThreshold none]
    else []
  | none => []

/-- The response-time section: stateless instantaneous comparison. -/
def responseTimeSection (cfg : AlertsConfig) (averageResponseTimeMs : Option ℚ) :
    List ResourceAction :=
  match averageResponseTimeMs with
  | some r =>
    if r ≥ cfg.responseTimeThreshold then
      [ResourceAction.resourceAlert RType.response_time r cfg.responseTimeThreshold none]
    else []
  | none => []

/-- The block-sync lag section: fire when heightDifference is strictly above
the threshold, dispatched as a performance alert. -/
def blockSyncSection (cfg : AlertsConfig) (heightDifference : Option ℚ) :
    List ResourceAction :=
  match heightDifference with
  | some hd =>
    if hd > cfg.blockSyncLagThreshold then
      [ResourceAction.performanceAlert PType.block_sync hd cfg.blockSyncLagThreshold]
    else []
  | none => []

/-- The ArNS cache section: fire when the hit rate is strictly below the
threshold (inverted comparison). -/
def arnsCacheSection (cfg : AlertsConfig) (arnsCacheHitRate : Option ℚ) :
    List ResourceAction :=
  match arnsCacheHitRate with
  | some rate =>
    if rate < cfg.arnsCacheHitRateThreshold then
      [ResourceAction.performanceAlert PType.arns_cache rate cfg.arnsCacheHitRateThreshold]
    else []
  | none => []

/-- The smoothed error-rate section: raw deltas against the previous
snapshot; if either raw delta is negative (counter reset) the window is
cleared first; deltas are clamped at 0; a sample is pushed only when the
clamped requests delta is positive; the window is pruned to 10 minutes; the
aggregated window fires when enough requests accumulated and the smoothed
rate exceeds the threshold. -/
def errorRateSection (cfg : AlertsConfig) (now : Int)
    (previousMetrics : Option PrevMetrics) (arnsErrors httpRequestsTotal : Option ℚ)
    (errorRateHistory : List ErrSample) : List ErrSample × List ResourceAction :=
  match previousMetrics, arnsErrors, httpRequestsTotal with
  | some prev, some errs, some reqs =>
    let rawErrorsDelta := errs - prev.errors.getD 0
    let rawRequestsDelta := reqs - prev.totalRequests.getD 0
    let hist0 := if rawErrorsDelta < 0 ∨ rawRequestsDelta < 0 then [] else errorRateHistory
    let errorsDelta := max rawErrorsDelta 0
    let requestsDelta := max rawRequestsDelta 0
    if requestsDelta > 0 then
      let hist1 : List ErrSample :=
        hist0 ++ [{ errors := errorsDelta, requests := requestsDelta, timestamp := now }]
      let smoothingWindowMs : Int := 10 * 60 * 1000
      let windowStart := now - smoothingWindowMs
      let hist2 := hist1.filter (fun sample => sample.timestamp ≥ windowStart)
      let aggErrors := (hist2.map (fun sample => sample.errors)).sum
      let aggRequests := (hist2.map (fun sample => sample.requests)).sum
      if aggRequests ≥ cfg.errorRateMinRequests ∧ aggRequests > 0 then
        let smoothedErrorRate := aggErrors / aggRequests * 100
        if smoothedErrorRate > cfg.errorRateThreshold then
          (hist2, [ResourceAction.performanceAlert PType.error_rate smoothedErrorRate
                     cfg.errorRateThreshold])
        else (hist2, [])
      else (hist2, [])
    else (hist0, [])
  | _, _, _ => (errorRateHistory, [])

/-- checkResources: one cycle of the resource monitoring loop, composed of
the sections above in program order, ending with the unconditional
previousMetrics update.  Returns the new monitor state and the dispatcher
calls made, in order. -/
def checkResources (cfg : AlertsConfig) (now : Int) (metrics : Metrics)
    (st : ResourceMonState) : ResourceMonState × List ResourceAction :=
  let cpuStep := cpuSection cfg now metrics.cpuUsagePercent st.cpuHistory
  let memActs := memorySection cfg metrics.memoryUsagePercent
  let diskActs := diskSection cfg metrics.diskUsagePercent
  let respActs := responseTimeSection cfg metrics.averageResponseTimeMs
  let blockSyncActs := blockSyncSection cfg metrics.heightDifference
  let cacheActs := arnsCacheSection cfg metrics.arnsCacheHitRate
  let errStep := errorRateSection cfg now st.previousMetrics metrics.arnsErrors
    metrics.httpRequestsTotal st.errorRateHistory
  let newState : ResourceMonState :=
    { cpuHistory := cpuStep.1
      errorRateHistory := errStep.1
      previousMetrics := some
        { timestamp := now
          blockHeight := metrics.lastHeightImported
          arnsResolutions := metrics.arnsResolutions
          errors := metrics.arnsErrors
          totalRequests := metrics.httpRequestsTotal } }
  (newState, cpuStep.2 ++ memActs ++ diskActs ++ respActs ++ blockSyncActs ++
    cacheActs ++ errStep.2)

/-- One input of a run of resource checks: the check time and the fetched
metrics. -/
structure ResourceInput where
  now : Int
  metrics : Metrics
deriving Repr

/-- Folding checkResources over a sequence of check cycles, collecting all
dispatcher calls. -/
def runResourceChecks (cfg : AlertsConfig) (inputs : List ResourceInput)
    (st : ResourceMonState) : ResourceMonState × List ResourceAction :=
  match inputs with
  | [] => (st, [])
  | inp :: rest =>
    let step := checkResources cfg inp.now inp.metrics st
    let tail := runResourceChecks cfg rest step.1
    (tail.1, step.2 ++ tail.2)

/-! ## Observer monitoring (checkObserver in the main monitoring loop) -/

/-- Epoch statistics fetched from the observer/epoch provider; any field may
be unavailable. -/
structure EpochStats where
  epochIndex : Int
  startTimestamp : Option Int
  endTimestamp : Option Int
  totalObservers : Option ℚ
  observationCount : Option ℚ
  observationPercentage : Option ℚ
  totalEligibleRewards : Option ℚ
  isDistributed : Bool
  totalDistributedRewards : Option ℚ
  distributionPercentage : Option ℚ
  gatewaysPassed : Option ℚ
  gatewaysFailed : Option ℚ
  passPercentage : Option ℚ
  failPercentage : Option ℚ
deriving DecidableEq, Repr

/-- Abstraction of JS number rendering (toFixed(1), toFixed(2), toFixed(4),
toLocaleString): an exact, injective rendering of the rational value. -/
def fmtNum (q : ℚ) : String := toString q

/-- formatDateTime: 'N/A' for a missing (or 0, hence falsy) timestamp,
otherwise the rendered time (locale rendering abstracted to the decimal
millisecond value). -/
def formatDateTime (timestamp : Option Int) : String :=
  match timestamp with
  | none => "N/A"
  | some t => if t = 0 then "N/A" else toString t

/-- formatDuration: 'N/A' unless both (truthy) endpoints are present with
endTimestamp > startTimestamp; otherwise whole hours and minutes computed by
flooring divisions, rendered as 'Hh Mm' or 'Mm'. -/
def formatDuration (startTimestamp endTimestamp : Option Int) : String :=
  match startTimestamp, endTimestamp with
  | some s, some e =>
    if s = 0 ∨ e = 0 ∨ e ≤ s then "N/A"
    else
      let durationMs := e - s
      let durationMinutes := Int.fdiv durationMs 60000
      let hours := Int.fdiv durationMinutes 60
      let minutes := Int.emod durationMinutes 60
      if hours > 0 then
        toString hours ++ "h " ++ toString minutes ++ "m"
      else
        toString minutes ++ "m"
  | _, _ => "N/A"

/-- Which boundary of an epoch a transition summary describes. -/
inductive EpochEvent
  | started
  | ended
deriving DecidableEq, Repr

/-- The lines array assembled by formatEpochChangeMessage, with the source's
explicit fallbacks ('Data unavailable', 'N/A', '0', 'Distribution: Pending')
whenever a statistic is missing. -/
def epochChangeLines (event : EpochEvent) (stats : EpochStats) : List String :=
  let headerEmoji := if event = EpochEvent.started then "🚀" else "✅"
  let headerVerb := if event = EpochEvent.started then "Started" else "Ended"
  let header := [headerEmoji ++ " *Epoch " ++ toString stats.epochIndex ++ " " ++ headerVerb ++ "*"]
  let timeLines :=
    if event = EpochEvent.started then
      ["Start: " ++ formatDateTime stats.startTimestamp,
       "Planned End: " ++ formatDateTime stats.endTimestamp]
    else
      ["Ended: " ++ formatDateTime stats.endTimestamp,
       "Duration: " ++ formatDuration stats.startTimestamp stats.endTimestamp]
  let observerLines :=
    ["", "*Observers*"] ++
    (match stats.totalObservers, stats.observationCount, stats.observationPercentage with
     | some tot, some cnt, some pct =>
       ["Reports Submitted: " ++ fmtNum cnt ++ "/" ++ fmtNum tot ++ " (" ++ fmtNum pct ++ "%)"]
     | _, _, _ => ["Reports Submitted: Data unavailable"])
  let rewardLines :=
    ["", "*Rewards*",
     "Eligible Rewards: " ++
       (match stats.totalEligibleRewards with
        | some r => fmtNum r
        | none => "N/A") ++ " ARIO"]
  let distributionLines :=
    if stats.isDistributed then
      ["Distributed: " ++
         (match stats.totalDistributedRewards with
          | some r => fmtNum r
          | none => "0") ++ " ARIO (" ++
         (match stats.distributionPercentage with
          | some p => fmtNum p
          | none => "0") ++ "%)"] ++
      (match stats.gatewaysPassed, stats.gatewaysFailed,
             stats.passPercentage, stats.failPercentage with
       | some gp, some gf, some pp, some fp =>
         ["Pass: " ++ fmtNum gp ++ " (" ++ fmtNum pp ++ "%) | Fail: " ++
          fmtNum gf ++ " (" ++ fmtNum fp ++ "%)"]
       | _, _, _, _ => [])
    else
      ["Distribution: Pending"]
  header ++ timeLines ++ observerLines ++ rewardLines ++ distributionLines

/-- formatEpochChangeMessage: the informational epoch summary, the lines
joined with newlines. -/
def formatEpochChangeMessage (event : EpochEvent) (stats : EpochStats) : String :=
  String.intercalate "\n" (epochChangeLines event stats)

/-- The observer status fetched each observer-check cycle. -/
structure ObserverStatus where
  epochIndex : Int
  isSelectedAsObserver : Bool
  hasSubmittedReport : Option Bool
  epochEndTimestamp : Option Int
  observerWeight : Option ℚ
deriving DecidableEq, Repr

/-- The lastObserverCheck snapshot stored at the end of every cycle. -/
structure LastObserverCheck where
  epochIndex : Int
  wasSelected : Bool
  hadReport : Bool
deriving DecidableEq, Repr

/-- One entry of the observer-selection history. -/
structure SelectionSample where
  epochIndex : Int
  selected : Bool
  timestamp : Int
deriving DecidableEq, Repr

/-- In-memory state of the observer check loop. -/
structure ObserverMonState where
  observerSelectionHistory : List SelectionSample
  lastObserverCheck : Option LastObserverCheck
deriving DecidableEq, Repr

/-- A call checkObserver makes into the telegram dispatcher: either a generic
sendAlert(sev, message, category) or a sendObserverAlert(otype, details). -/
inductive ObserverAction
  | alert (sev : Sev) (message : String) (category : String)
  | observerAlert (otype : OType) (value : Option ℚ) (threshold : Option ℚ)
      (epochIndex : Option Int) (additional : Option String)
deriving DecidableEq, Repr

/-- The warning message sent when a report is pending with under 12 hours
remaining. -/
def observerReportWarningMessage (epochIndex hoursRemaining : Int) : String :=
  "⚠️ No observation report submitted!\n\n" ++
  "Epoch: " ++ toString epochIndex ++ "\n" ++
  "Time remaining: " ++ toString hoursRemaining ++ " hours\n" ++
  "Action: Submit observations now!"

/-- JS Array.prototype.slice(-n): the last n elements; the whole array when
n = 0 (JS -0 is 0) or when n is at least the length. -/
def sliceNeg (l : List SelectionSample) (n : Nat) : List SelectionSample :=
  if n = 0 then l else l.drop (l.length - n)

/-- Rendering of recentHistory[i].epochIndex inside the range label; JS
yields 'undefined' for an out-of-range index. -/
def selEpochStr (h : Option SelectionSample) : String :=
  match h with
  | some s => toString s.epochIndex
  | none => "undefined"

/-- The epoch-transition section of checkObserver: when the epoch index
changed relative to the last check, emit the previous epoch's "ended" summary
and the new epoch's "started" summary as informational alerts; a failed stats
fetch (none) silently skips its alert. -/
def epochTransitionSection (epochChanged : Bool) (prevStats currStats : Option EpochStats) :
    List ObserverAction :=
  if epochChanged then
    (match prevStats with
     | some ps =>
       [ObserverAction.alert Sev.info (formatEpochChangeMessage EpochEvent.ended ps) "epoch"]
     | none => []) ++
    (match currStats with
     | some cs =>
       [ObserverAction.alert Sev.info (formatEpochChangeMessage EpochEvent.started cs) "epoch"]
     | none => [])
  else []

/-- The report-deadline section of checkObserver: when selected with no
submitted report, warn while 0 < hoursRemaining < 12, and fire the distinct
report-failed alert when hoursRemaining has reached 0, gated on the epoch
index differing from the last recorded check. -/
def reportSection (now : Int) (status : ObserverStatus) (previousEpoch : Option Int) :
    List ObserverAction :=
  if status.isSelectedAsObserver = true ∧ status.hasSubmittedReport.getD false = false then
    let timeRemaining : Int :=
      match status.epochEndTimestamp with
      | some e => if e ≠ 0 then e - now else 0
      | none => 0
    let hoursRemaining := Int.fdiv timeRemaining 3600000
    (if hoursRemaining < 12 ∧ hoursRemaining > 0 then
      [ObserverAction.alert Sev.warning
        (observerReportWarningMessage status.epochIndex hoursRemaining) "observer_report"]
    else []) ++
    (if hoursRemaining ≤ 0 ∧ previousEpoch ≠ some status.epochIndex then
      [ObserverAction.observerAlert OType.report_failed none none (some status.epochIndex)
        (some "Epoch deadline has passed")]
    else [])
  else []

/-- The selection-history section of checkObserver: append one entry per
epoch change (capped at 20 entries by shifting the front), then fire the
not-selected-streak alert when the last notSelectedEpochsThreshold entries all
say "not selected". -/
def selectionSection (cfg : AlertsConfig) (now : Int) (status : ObserverStatus)
    (previousEpoch : Option Int) (history : List SelectionSample) :
    List SelectionSample × List ObserverAction :=
  if previousEpoch ≠ some status.epochIndex then
    let pushed : List SelectionSample :=
      history ++
        [{ epochIndex := status.epochIndex
           selected := status.isSelectedAsObserver
           timestamp := now }]
    let hist := if pushed.length > 20 then pushed.tail else pushed
    let recentHistory := sliceNeg hist cfg.notSelectedEpochsThreshold
    if recentHistory.length ≥ cfg.notSelectedEpochsThreshold then
      if recentHistory.all (fun h => !h.selected) then
        (hist, [ObserverAction.observerAlert OType.not_selected
                  (some (cfg.notSelectedEpochsThreshold : ℚ))
                  (some (cfg.notSelectedEpochsThreshold : ℚ)) none
                  (some ("Epochs " ++ selEpochStr recentHistory.head? ++ " - " ++
                         selEpochStr recentHistory.getLast?))])
      else (hist, [])
    else (hist, [])
  else (history, [])

/-- The low-observer-weight section: instantaneous comparison when the weight
is available. -/
def weightSection (cfg : AlertsConfig) (observerWeight : Option ℚ) :
    List ObserverAction :=
  match observerWeight with
  | some w =>
    if w < cfg.lowObserverWeightThreshold then
      [ObserverAction.observerAlert OType.low_weight (some w)
        (some cfg.lowObserverWeightThreshold) none
        (some "Lower weights reduce selection probability")]
    else []
  | none => []

/-- checkObserver: one cycle of the observer monitoring loop.  prevStats and
currStats are the results of the two getEpochStats fetches (none models a
fetch that threw; its alert is skipped).  Sections in program order: epoch
transition summaries, report-deadline warning and the epoch-gated report-
failed alert, selection history with the not-selected streak, low observer
weight, and the final lastObserverCheck update. -/
def checkObserver (cfg : AlertsConfig) (now : Int) (status : ObserverStatus)
    (prevStats currStats : Option EpochStats) (st : ObserverMonState) :
    ObserverMonState × List ObserverAction :=
  let previousEpoch : Option Int := st.lastObserverCheck.map (fun lc => lc.epochIndex)
  let epochChanged : Bool :=
    match previousEpoch with
    | some p => status.epochIndex ≠ p
    | none => false
  let epochActs := epochTransitionSection epochChanged prevStats currStats
  let reportActs := reportSection now status previousEpoch
  let selStep := selectionSection cfg now status previousEpoch st.observerSelectionHistory
  let weightActs := weightSection cfg status.observerWeight
  let newState : ObserverMonState :=
    { observerSelectionHistory := selStep.1
      lastObserverCheck := some
        { epochIndex := status.epochIndex
          wasSelected := status.isSelectedAsObserver
          hadReport := status.hasSubmittedReport.getD false } }
  (newState, epochActs ++ reportActs ++ selStep.2 ++ weightActs)

/-- One input of a run of observer checks: check time, fetched status, and
the results of the two epoch-stat fetches performed on an epoch change. -/
structure ObserverInput where
  now : Int
  status : ObserverStatus
  prevStats : Option EpochStats
  currStats : Option EpochStats
deriving Repr

/-- Folding checkObserver over consecutive check cycles, collecting all
dispatcher calls. -/
def runObserverChecks (cfg : AlertsConfig) (inputs : List ObserverInput)
    (st : ObserverMonState) : ObserverMonState × List ObserverAction :=
  match inputs with
  | [] => (st, [])
  | inp :: rest =>
    let step := checkObserver cfg inp.now inp.status inp.prevStats inp.currStats st
    let tail := runObserverChecks cfg rest step.1
    (tail.1, step.2 ++ tail.2)

/-! ## Dispatcher lemmas -/

/-- Shifting the front off a push: the tail of a nonempty list with one
element appended. -/
theorem tail_append_singleton {α : Type} {l : List α} {e : α} (h : l ≠ []) :
    (l ++ [e]).tail = l.tail ++ [e] := by
  cases l with
  | nil => exact absurd rfl h
  | cons a t => simp

/-- The alert history produced by sendAlert: unchanged inside the cooldown
window, otherwise the bounded append of the new entry — independently of any
mute state. -/
theorem sendAlert_alertHistory (cooldown now : Int) (sev : Sev) (message : String)
    (category : Option String) (s : BotState) :
    (sendAlert cooldown now sev message category s).1.alertHistory =
      if now - ((s.lastAlertTime (AlertKey.generic (sevStr sev) message)).getD 0) < cooldown
      then s.alertHistory
      else trimHistory (s.alertHistory ++ [historyEntry now sev message]) := by
  rcases category with _ | c <;>
    rcases hmu : s.muteUntil with _ | m <;>
    simp only [sendAlert, hmu] <;>
    split_ifs <;>
    simp_all

/-- C10: after every call to the generic alert dispatch operation the alert
history holds at most 100 entries, and when the bound is already reached a
candidate that passes cooldown evicts the oldest (front) entry while the new
entry is appended at the back. -/
theorem sendAlert_history_bounded (cooldown now : Int) (sev : Sev) (message : String)
    (category : Option String) (s : BotState) :
    (s.alertHistory.length ≤ 100 →
      (sendAlert cooldown now sev message category s).1.alertHistory.length ≤ 100)
    ∧ (s.alertHistory.length = 100 →
        now - ((s.lastAlertTime (AlertKey.generic (sevStr sev) message)).getD 0) ≥ cooldown →
        (sendAlert cooldown now sev message category s).1.alertHistory =
          s.alertHistory.tail ++ [historyEntry now sev message]) := by
  constructor
  · intro hle
    rw [sendAlert_alertHistory]
    split
    · exact hle
    · unfold trimHistory
      split
      · rename_i hgt
        rw [List.length_tail]
        simp at hgt ⊢
        omega
      · rename_i hng
        simp at hng ⊢
        omega
  · intro hlen hcd
    rw [sendAlert_alertHistory]
    rw [if_neg (by omega)]
    unfold trimHistory
    rw [if_pos (by simp; omega)]
    exact tail_append_singleton (by intro hnil; rw [hnil] at hlen; simp at hlen)

/-- Witness for the bounded-history theorem at a concrete full buffer. -/
theorem sendAlert_history_bounded_witness :
    ((List.replicate 100 (historyEntry 0 Sev.info "x")).length ≤ 100
      ∧ (sendAlert 10 20 Sev.info "boot" none
          { initialBotState with
            alertHistory := List.replicate 100 (historyEntry 0 Sev.info "x") }).1.alertHistory.length ≤ 100)
    ∧ (sendAlert 10 20 Sev.info "boot" none
        { initialBotState with
          alertHistory := List.replicate 100 (historyEntry 0 Sev.info "x") }).1.alertHistory =
        (List.replicate 100 (historyEntry 0 Sev.info "x")).tail ++ [historyEntry 20 Sev.info "boot"] := by
  refine ⟨⟨by simp, ?_⟩, ?_⟩
  · exact (sendAlert_history_bounded 10 20 Sev.info "boot" none _).1 (by simp)
  · exact (sendAlert_history_bounded 10 20 Sev.info "boot" none _).2 (by simp)
      (by norm_num [initialBotState])

/-- A generic alert dispatched while the global mute is active (set and
unexpired) is never sent, whatever the category or cooldown situation. -/
theorem sendAlert_globally_muted_not_sent (cooldown now m : Int) (sev : Sev)
    (message : String) (category : Option String) (s : BotState)
    (him : s.isMuted = true) (hmu : s.muteUntil = some m) (hm0 : m ≠ 0) (hnow : now < m) :
    (sendAlert cooldown now sev message category s).2 = false := by
  rcases category with _ | c <;>
    simp only [sendAlert, hmu] <;>
    split_ifs <;>
    simp_all [muteActive] <;>
    omega

/-- C5 counterexample: a resource alert that passes cooldown is sent, yet the
alert history stays empty — sendResourceAlert never appends to history, so
the claimed history discipline fails for non-generic dispatches. -/
theorem sendResourceAlert_skips_history_cex :
    ((sendResourceAlert 100000 200000 RType.cpu 90 80 initialBotState).2.isSome = true)
    ∧ ((sendResourceAlert 100000 200000 RType.cpu 90 80 initialBotState).1.alertHistory = []) := by
  constructor <;> decide

/-- C5 (amended): for generic alerts dispatched through sendAlert, a candidate
inside the cooldown window leaves the history unchanged, and a candidate past
cooldown is appended (bounded) before the mute checks, so a globally muted
candidate still lands in history while its send is suppressed. -/
theorem sendAlert_history_discipline (cooldown now m : Int) (sev : Sev)
    (message : String) (category : Option String) (s : BotState) :
    (now - ((s.lastAlertTime (AlertKey.generic (sevStr sev) message)).getD 0) < cooldown →
      (sendAlert cooldown now sev message category s).1.alertHistory = s.alertHistory)
    ∧ (now - ((s.lastAlertTime (AlertKey.generic (sevStr sev) message)).getD 0) ≥ cooldown →
      (sendAlert cooldown now sev message category s).1.alertHistory =
        trimHistory (s.alertHistory ++ [historyEntry now sev message]))
    ∧ (now - ((s.lastAlertTime (AlertKey.generic (sevStr sev) message)).getD 0) ≥ cooldown →
      s.isMuted = true → s.muteUntil = some m → m ≠ 0 → now < m →
      (sendAlert cooldown now sev message category s).2 = false
      ∧ (sendAlert cooldown now sev message category s).1.alertHistory =
          trimHistory (s.alertHistory ++ [historyEntry now sev message])) := by
  refine ⟨?_, ?_, ?_⟩
  · intro h
    rw [sendAlert_alertHistory, if_pos h]
  · intro h
    rw [sendAlert_alertHistory, if_neg (by omega)]
  · intro h him hmu hm0 hnow
    exact ⟨sendAlert_globally_muted_not_sent cooldown now m sev message category s him hmu hm0 hnow,
      by rw [sendAlert_alertHistory, if_neg (by omega)]⟩

/-- Witness for the history-discipline theorem on a concrete muted state. -/
theorem sendAlert_history_discipline_witness :
    ((sendAlert 10 100 Sev.critical "down" (some "service_health")
        { initialBotState with isMuted := true, muteUntil := some 500 }).2 = false
      ∧ (sendAlert 10 100 Sev.critical "down" (some "service_health")
          { initialBotState with isMuted := true, muteUntil := some 500 }).1.alertHistory =
        trimHistory ([] ++ [historyEntry 100 Sev.critical "down"]))
    ∧ (sendAlert 10 3 Sev.critical "down" (some "service_health")
        { initialBotState with isMuted := true, muteUntil := some 500 }).1.alertHistory = [] := by
  constructor
  · exact (sendAlert_history_discipline 10 100 500 Sev.critical "down" (some "service_health")
      _).2.2 (by norm_num [initialBotState]) rfl rfl (by decide) (by decide)
  · exact (sendAlert_history_discipline 10 3 500 Sev.critical "down" (some "service_health")
      _).1 (by norm_num [initialBotState])

/-- Finding the first entry for a key survives filtering when that entry
itself passes the filter (there is no earlier entry for the key to remove). -/
theorem mapFind_filter (l : List (String × Int)) (c : String) (t : Int)
    (p : String × Int → Bool) (h : mapFind l c = some t) (hp : p (c, t) = true) :
    mapFind (l.filter p) c = some t := by
  induction l with
  | nil => simp [mapFind] at h
  | cons a rest ih =>
    by_cases hc : a.1 = c
    · have ha : a = (c, t) := by
        have ht : a.2 = t := by
          rw [mapFind, List.find?_cons_of_pos _ (by simp [hc])] at h
          simpa using h
        cases a
        simp_all
      subst ha
      rw [List.filter_cons_of_pos hp, mapFind, List.find?_cons_of_pos _ (by simp)]
      rfl
    · have h2 : mapFind rest c = some t := by
        rw [mapFind, List.find?_cons_of_neg _ (by simp [hc])] at h
        exact h
      by_cases hpa : p a = true
      · rw [List.filter_cons_of_pos hpa, mapFind,
          List.find?_cons_of_neg _ (by simp [hc])]
        exact ih h2
      · rw [List.filter_cons_of_neg (by simp [hpa])]
        exact ih h2

/-- A generic alert tagged with an unexpired-muted category is never sent. -/
theorem sendAlert_category_muted_not_sent (cooldown now t : Int) (sev : Sev)
    (message : String) (c : String) (s : BotState) (hne : c ≠ "")
    (hfind : mapFind s.categoryMutes c = some t) (hnow : now < t) :
    (sendAlert cooldown now sev message (some c) s).2 = false := by
  have hf : mapFind (s.categoryMutes.filter (fun p => decide (now < p.2))) c = some t :=
    mapFind_filter s.categoryMutes c t _ hfind (by simp [hnow])
  rcases hmu : s.muteUntil with _ | m <;>
    simp only [sendAlert, hmu] <;>
    split_ifs <;>
    simp_all

/-- A generic alert past cooldown, with the global mute off and no unexpired
mute for its (possibly absent) category, is sent. -/
theorem sendAlert_unmuted_sent (cooldown now : Int) (sev : Sev) (message : String)
    (category : Option String) (s : BotState) (him : s.isMuted = false)
    (hcool : now - ((s.lastAlertTime (AlertKey.generic (sevStr sev) message)).getD 0) ≥ cooldown)
    (hcat : ∀ c, category = some c →
      mapFind (s.categoryMutes.filter (fun p => decide (now < p.2))) c = none) :
    (sendAlert cooldown now sev message category s).2 = true := by
  rcases category with _ | c <;>
    rcases hmu : s.muteUntil with _ | m <;>
    simp only [sendAlert, hmu] <;>
    split_ifs <;>
    simp_all <;>
    omega

/-- An expired category-mute entry is indistinguishable from an absent one:
sendAlert computes the same result and the same successor state. -/
theorem sendAlert_expired_category_mute (cooldown now t : Int) (sev : Sev)
    (message : String) (category : Option String) (c : String)
    (l1 l2 : List (String × Int)) (s : BotState)
    (hcm : s.categoryMutes = l1 ++ (c, t) :: l2) (hexp : now ≥ t) :
    sendAlert cooldown now sev message category s =
      sendAlert cooldown now sev message category { s with categoryMutes := l1 ++ l2 } := by
  have hfilters : List.filter (fun p => decide (now < p.2)) (l1 ++ (c, t) :: l2) =
      List.filter (fun p => decide (now < p.2)) (l1 ++ l2) := by
    simp only [List.filter_append, List.filter_cons]
    rw [if_neg (by simp; omega)]
  obtain ⟨la, ah, im, mu, cm⟩ := s
  dsimp only at hcm
  subst hcm
  simp only [sendAlert, hfilters]

/-- C4 counterexample: with the global mute active (set, far from expiry), a
resource alert passing cooldown is still sent — sendResourceAlert performs no
mute check at all, so mute precedence does not hold for alerts of every kind. -/
theorem resource_alert_ignores_mutes_cex :
    ((sendResourceAlert 100000 200000 RType.cpu 90 80
        { initialBotState with isMuted := true, muteUntil := some 1000000000 }).2.isSome = true)
    ∧ (200000 : Int) < 1000000000 := by
  constructor <;> decide

/-- C4 (amended): mute precedence for generic alerts dispatched through
sendAlert: an active global mute suppresses the send regardless of the
candidate's category and of any category-mute state; an unexpired category
mute suppresses exactly the alerts tagged with that category; and an expired
category mute behaves identically to no mute at all.  Resource alerts bypass
every mute check (see the counterexample). -/
theorem sendAlert_mute_precedence (cooldown now m t : Int) (sev : Sev) (message : String)
    (c : String) (category : Option String) (l1 l2 : List (String × Int)) (s : BotState) :
    (s.isMuted = true → s.muteUntil = some m → m ≠ 0 → now < m →
      (sendAlert cooldown now sev message category s).2 = false)
    ∧ (c ≠ "" → mapFind s.categoryMutes c = some t → now < t →
      (sendAlert cooldown now sev message (some c) s).2 = false)
    ∧ (s.isMuted = false →
      now - ((s.lastAlertTime (AlertKey.generic (sevStr sev) message)).getD 0) ≥ cooldown →
      (sendAlert cooldown now sev message none s).2 = true)
    ∧ (s.isMuted = false →
      now - ((s.lastAlertTime (AlertKey.generic (sevStr sev) message)).getD 0) ≥ cooldown →
      mapFind (s.categoryMutes.filter (fun p => decide (now < p.2))) c = none →
      (sendAlert cooldown now sev message (some c) s).2 = true)
    ∧ (s.categoryMutes = l1 ++ (c, t) :: l2 → now ≥ t →
      sendAlert cooldown now sev message category s =
        sendAlert cooldown now sev message category { s with categoryMutes := l1 ++ l2 }) := by
  refine ⟨?_, ?_, ?_, ?_, ?_⟩
  · intro him hmu hm0 hnow
    exact sendAlert_globally_muted_not_sent cooldown now m sev message category s him hmu hm0 hnow
  · intro hne hfind hnow
    exact sendAlert_category_muted_not_sent cooldown now t sev message c s hne hfind hnow
  · intro him hcool
    exact sendAlert_unmuted_sent cooldown now sev message none s him hcool (by intro c hc; cases hc)
  · intro him hcool hnone
    exact sendAlert_unmuted_sent cooldown now sev message (some c) s him hcool
      (by intro c2 hc; cases hc; exact hnone)
  · intro hcm hexp
    exact sendAlert_expired_category_mute cooldown now t sev message category c l1 l2 s hcm hexp

/-- Witness instantiating every part of the mute-precedence theorem. -/
theorem sendAlert_mute_precedence_witness :
    ((sendAlert 10 5 Sev.info "a" (some "epoch")
        { initialBotState with isMuted := true, muteUntil := some 99 }).2 = false)
    ∧ ((sendAlert 10 50 Sev.info "a" (some "epoch")
        { initialBotState with categoryMutes := [("epoch", 80)] }).2 = false)
    ∧ ((sendAlert 10 50 Sev.info "a" none initialBotState).2 = true)
    ∧ ((sendAlert 10 50 Sev.info "a" (some "epoch") initialBotState).2 = true)
    ∧ (sendAlert 10 50 Sev.info "a" (some "epoch")
        { initialBotState with categoryMutes := [("epoch", 7)] } =
      sendAlert 10 50 Sev.info "a" (some "epoch")
        { { initialBotState with categoryMutes := [("epoch", 7)] } with
            categoryMutes := [] ++ [] }) := by
  refine ⟨?_, ?_, ?_, ?_, ?_⟩
  · exact (sendAlert_mute_precedence 10 5 99 0 Sev.info "a" "x" (some "epoch") [] [] _).1
      rfl rfl (by decide) (by decide)
  · exact (sendAlert_mute_precedence 10 50 0 80 Sev.info "a" "epoch" none [] [] _).2.1
      (by decide) (by decide) (by decide)
  · exact (sendAlert_mute_precedence 10 50 0 0 Sev.info "a" "x" none [] [] _).2.2.1
      rfl (by norm_num [initialBotState])
  · exact (sendAlert_mute_precedence 10 50 0 0 Sev.info "a" "epoch" none [] [] _).2.2.2.1
      rfl (by norm_num [initialBotState]) (by decide)
  · exact (sendAlert_mute_precedence 10 50 0 7 Sev.info "a" "epoch" (some "epoch") [] [] _).2.2.2.2
      (by decide) (by decide)

/-- Updating a key and reading it back. -/
theorem mapSet_self (m : AlertKey → Option Int) (k : AlertKey) (v : Int) :
    mapSet m k v k = some v := by
  simp [mapSet]

/-- C3 counterexample: two performance alerts of the same kind but different
thresholds share one dedup key, so the second dispatch is absorbed by the
first one's cooldown window — the performance dedup key is the category
alone, not (category, threshold value). -/
theorem performance_key_ignores_threshold_cex :
    ((sendPerformanceAlert 100000 200000 PType.block_sync 50 10 initialBotState).2.isSome = true)
    ∧ ((sendPerformanceAlert 100000 200001 PType.block_sync 60 20
        (sendPerformanceAlert 100000 200000 PType.block_sync 50 10 initialBotState).1).2 = none)
    ∧ (10 : ℚ) ≠ 20 := by
  refine ⟨?_, ?_, ?_⟩ <;> decide

/-- A resource alert dispatched inside its key's cooldown window is
suppressed. -/
theorem sendResourceAlert_suppressed (cooldown now : Int) (rtype : RType) (v thr : ℚ)
    (s : BotState)
    (h : now - ((s.lastAlertTime (AlertKey.resource rtype thr)).getD 0) < cooldown) :
    (sendResourceAlert cooldown now rtype v thr s).2 = none := by
  simp only [sendResourceAlert]
  rw [if_pos h]

/-- A performance alert dispatched inside its key's cooldown window is
suppressed. -/
theorem sendPerformanceAlert_suppressed (cooldown now : Int) (ptype : PType)
    (cur thr : ℚ) (s : BotState)
    (h : now - ((s.lastAlertTime (AlertKey.performance ptype)).getD 0) < cooldown) :
    (sendPerformanceAlert cooldown now ptype cur thr s).2 = none := by
  simp only [sendPerformanceAlert]
  rw [if_pos h]

/-- C3 (amended): resource alerts dedup on (kind, crossed threshold) — a
second dispatch of the same (kind, threshold) within one cooldown window
yields exactly one send, whatever the two current values are — while
performance alerts dedup on the kind alone, so a redispatch within cooldown
is suppressed even when its threshold differs. -/
theorem resource_cooldown_idempotent (cooldown now1 now2 : Int) (rtype : RType)
    (ptype : PType) (v1 v2 thr thr1 thr2 c1 c2 : ℚ) (s : BotState)
    (h1 : now1 - ((s.lastAlertTime (AlertKey.resource rtype thr)).getD 0) ≥ cooldown)
    (h2 : now2 - now1 < cooldown)
    (hp1 : now1 - ((s.lastAlertTime (AlertKey.performance ptype)).getD 0) ≥ cooldown) :
    ((sendResourceAlert cooldown now1 rtype v1 thr s).2.isSome = true
      ∧ (sendResourceAlert cooldown now2 rtype v2 thr
          (sendResourceAlert cooldown now1 rtype v1 thr s).1).2 = none)
    ∧ ((sendPerformanceAlert cooldown now1 ptype c1 thr1 s).2.isSome = true
      ∧ (sendPerformanceAlert cooldown now2 ptype c2 thr2
          (sendPerformanceAlert cooldown now1 ptype c1 thr1 s).1).2 = none) := by
  have er : (sendResourceAlert cooldown now1 rtype v1 thr s).1.lastAlertTime
      (AlertKey.resource rtype thr) = some now1 := by
    simp only [sendResourceAlert]
    rw [if_neg (by omega)]
    exact mapSet_self _ _ _
  have ep : (sendPerformanceAlert cooldown now1 ptype c1 thr1 s).1.lastAlertTime
      (AlertKey.performance ptype) = some now1 := by
    simp only [sendPerformanceAlert]
    rw [if_neg (by omega)]
    exact mapSet_self _ _ _
  refine ⟨⟨?_, ?_⟩, ?_, ?_⟩
  · simp only [sendResourceAlert]
    rw [if_neg (by omega)]
    rfl
  · refine sendResourceAlert_suppressed cooldown now2 rtype v2 thr _ ?_
    rw [er]
    simpa using h2
  · simp only [sendPerformanceAlert]
    rw [if_neg (by omega)]
    rfl
  · refine sendPerformanceAlert_suppressed cooldown now2 ptype c2 thr2 _ ?_
    rw [ep]
    simpa using h2

/-- Witness for cooldown idempotence at concrete inputs. -/
theorem resource_cooldown_idempotent_witness :
    ((sendResourceAlert 1000 5000 RType.memory 91 80 initialBotState).2.isSome = true
      ∧ (sendResourceAlert 1000 5500 RType.memory 99 80
          (sendResourceAlert 1000 5000 RType.memory 91 80 initialBotState).1).2 = none)
    ∧ ((sendPerformanceAlert 1000 5000 PType.error_rate 7 5 initialBotState).2.isSome = true
      ∧ (sendPerformanceAlert 1000 5500 PType.error_rate 9 6
          (sendPerformanceAlert 1000 5000 PType.error_rate 7 5 initialBotState).1).2 = none) :=
  resource_cooldown_idempotent 1000 5000 5500 RType.memory PType.error_rate
    91 99 80 5 6 7 9 initialBotState (by norm_num [initialBotState])
    (by norm_num) (by norm_num [initialBotState])

/-- C9 counterexample: with the configured cooldown at 1000 ms, a generic
alert redispatched 2000 ms later is sent again, but a gateway-change alert
redispatched 2000 ms later is still suppressed by its hardcoded 300000 ms
window — dedup spacing is not uniformly the configured cooldown. -/
theorem gateway_cooldown_hardcoded_cex :
    ((sendAlert 1000 1000000 Sev.info "hello" none initialBotState).2 = true)
    ∧ ((sendAlert 1000 1002000 Sev.info "hello" none
        (sendAlert 1000 1000000 Sev.info "hello" none initialBotState).1).2 = true)
    ∧ ((sendGatewayChangeAlert 1000000 "joined" "addr" initialBotState).2 = true)
    ∧ ((sendGatewayChangeAlert 1002000 "joined" "addr"
        (sendGatewayChangeAlert 1000000 "joined" "addr" initialBotState).1).2 = false)
    ∧ ((1002000 : Int) - 1000000 ≥ 1000) := by
  refine ⟨?_, ?_, ?_, ?_, ?_⟩ <;> decide

/-- A generic alert dispatched inside its cooldown window is never sent. -/
theorem sendAlert_cooldown_not_sent (cooldown now : Int) (sev : Sev) (message : String)
    (category : Option String) (s : BotState)
    (h : now - ((s.lastAlertTime (AlertKey.generic (sevStr sev) message)).getD 0) < cooldown) :
    (sendAlert cooldown now sev message category s).2 = false := by
  rcases category with _ | c <;>
    simp only [sendAlert] <;>
    rw [if_pos h]

/-- C9 (amended): the single configured cooldown governs generic, resource,
performance and observer alerts uniformly, while gateway-change and
ArNS-change alerts use a hardcoded 300000 ms window instead. -/
theorem cooldown_windows (cooldown now : Int) (sev : Sev) (message : String)
    (category : Option String) (rtype : RType) (v thr cur pthr : ℚ) (ptype : PType)
    (otype : OType) (ev addr ct nm : String) (s : BotState) :
    (now - ((s.lastAlertTime (AlertKey.generic (sevStr sev) message)).getD 0) < cooldown →
      (sendAlert cooldown now sev message category s).2 = false)
    ∧ ((sendResourceAlert cooldown now rtype v thr s).2.isSome = true ↔
        now - ((s.lastAlertTime (AlertKey.resource rtype thr)).getD 0) ≥ cooldown)
    ∧ ((sendPerformanceAlert cooldown now ptype cur pthr s).2.isSome = true ↔
        now - ((s.lastAlertTime (AlertKey.performance ptype)).getD 0) ≥ cooldown)
    ∧ ((sendObserverAlert cooldown now otype s).2 = true ↔
        now - ((s.lastAlertTime (AlertKey.observer otype)).getD 0) ≥ cooldown)
    ∧ ((sendGatewayChangeAlert now ev addr s).2 = true ↔
        now - ((s.lastAlertTime (AlertKey.gateway ev addr)).getD 0) ≥ 300000)
    ∧ ((sendArnsChangeAlert now ct nm s).2 = true ↔
        now - ((s.lastAlertTime (AlertKey.arns ct nm)).getD 0) ≥ 300000) := by
  refine ⟨sendAlert_cooldown_not_sent cooldown now sev message category s, ?_, ?_, ?_, ?_, ?_⟩ <;>
    · simp only [sendResourceAlert, sendPerformanceAlert, sendObserverAlert,
        sendGatewayChangeAlert, sendArnsChangeAlert]
      split <;> rename_i h <;> simp <;> omega

/-- Witness for the cooldown-window theorem at concrete inputs. -/
theorem cooldown_windows_witness :
    ((sendAlert 1000 500 Sev.warning "w" none initialBotState).2 = false)
    ∧ ((sendResourceAlert 1000 5000 RType.disk 93 90 initialBotState).2.isSome = true)
    ∧ ((sendGatewayChangeAlert 2000 "left" "a" initialBotState).2 = false) := by
  refine ⟨?_, ?_, ?_⟩
  · exact (cooldown_windows 1000 500 Sev.warning "w" none RType.disk 93 90 93 90
      PType.arns_cache OType.low_weight "left" "a" "lease" "n" initialBotState).1
      (by norm_num [initialBotState])
  · exact ((cooldown_windows 1000 5000 Sev.warning "w" none RType.disk 93 90 93 90
      PType.arns_cache OType.low_weight "left" "a" "lease" "n" initialBotState).2.1).mpr
      (by norm_num [initialBotState])
  · have h := ((cooldown_windows 1000 2000 Sev.warning "w" none RType.disk 93 90 93 90
      PType.arns_cache OType.low_weight "left" "a" "lease" "n" initialBotState).2.2.2.2.1)
    norm_num [initialBotState] at h
    simpa using h

/-! ## Section shape lemmas for checkResources -/

/-- Every memory-section action is a memory resource alert. -/
theorem memorySection_shape (cfg : AlertsConfig) (o : Option ℚ) (a : ResourceAction)
    (h : a ∈ memorySection cfg o) :
    ∃ m, a = ResourceAction.resourceAlert RType.memory m cfg.memoryThreshold none := by
  rcases o with _ | m
  · simp [memorySection] at h
  · simp only [memorySection] at h
    split at h
    · exact ⟨m, by simpa using h⟩
    · simp at h

/-- Every disk-section action is a disk resource alert. -/
theorem diskSection_shape (cfg : AlertsConfig) (o : Option ℚ) (a : ResourceAction)
    (h : a ∈ diskSection cfg o) :
    ∃ d, a = ResourceAction.resourceAlert RType.disk d cfg.diskThreshold none := by
  rcases o with _ | d
  · simp [diskSection] at h
  · simp only [diskSection] at h
    split at h
    · exact ⟨d, by simpa using h⟩
    · simp at h

/-- Every response-time-section action is a response-time resource alert. -/
theorem responseTimeSection_shape (cfg : AlertsConfig) (o : Option ℚ) (a : ResourceAction)
    (h : a ∈ responseTimeSection cfg o) :
    ∃ r, a = ResourceAction.resourceAlert RType.response_time r cfg.responseTimeThreshold none := by
  rcases o with _ | r
  · simp [responseTimeSection] at h
  · simp only [responseTimeSection] at h
    split at h
    · exact ⟨r, by simpa using h⟩
    · simp at h

/-- Every block-sync-section action is a block-sync performance alert. -/
theorem blockSyncSection_shape (cfg : AlertsConfig) (o : Option ℚ) (a : ResourceAction)
    (h : a ∈ blockSyncSection cfg o) :
    ∃ hd, a = ResourceAction.performanceAlert PType.block_sync hd cfg.blockSyncLagThreshold := by
  rcases o with _ | hd
  · simp [blockSyncSection] at h
  · simp only [blockSyncSection] at h
    split at h
    · exact ⟨hd, by simpa using h⟩
    · simp at h

/-- Every ArNS-cache-section action is an arns_cache performance alert. -/
theorem arnsCacheSection_shape (cfg : AlertsConfig) (o : Option ℚ) (a : ResourceAction)
    (h : a ∈ arnsCacheSection cfg o) :
    ∃ r, a = ResourceAction.performanceAlert PType.arns_cache r cfg.arnsCacheHitRateThreshold := by
  rcases o with _ | r
  · simp [arnsCacheSection] at h
  · simp only [arnsCacheSection] at h
    split at h
    · exact ⟨r, by simpa using h⟩
    · simp at h

/-- Every error-rate-section action is an error_rate performance alert. -/
theorem errorRateSection_shape (cfg : AlertsConfig) (now : Int) (pm : Option PrevMetrics)
    (oe orq : Option ℚ) (hist : List ErrSample) (a : ResourceAction)
    (h : a ∈ (errorRateSection cfg now pm oe orq hist).2) :
    ∃ r t, a = ResourceAction.performanceAlert PType.error_rate r t := by
  rcases pm with _ | prev <;> rcases oe with _ | errs <;> rcases orq with _ | reqs <;>
    simp only [errorRateSection] at h <;>
    try (exact absurd h (List.not_mem_nil a))
  repeat' split at h
  all_goals first
    | exact absurd h (List.not_mem_nil a)
    | exact ⟨_, _, by simpa using h⟩

/-- The CPU window stored by cpuSection is the pushed-then-pruned history in
both branches. -/
theorem cpuSection_fst (cfg : AlertsConfig) (now : Int) (cpu : ℚ)
    (cpuHistory : List CpuSample) :
    (cpuSection cfg now (some cpu) cpuHistory).1 =
      (cpuHistory ++ [({ value := cpu, timestamp := now } : CpuSample)]).filter
        (fun h => h.timestamp > now - 10 * 60 * 1000) := by
  simp only [cpuSection]
  split <;> rfl

/-- C2: the sustained-CPU alert fires in a resource check exactly when the
sub-window of the (pushed and pruned) CPU history covering cpuDurationMinutes
holds at least cpuDurationMinutes samples, every sample in that sub-window is
at or above cpuThreshold, and the current sample is at or above cpuThreshold. -/
theorem checkResources_cpu_alert_iff (cfg : AlertsConfig) (now : Int) (metrics : Metrics)
    (st : ResourceMonState) (cpu : ℚ) (hcpu : metrics.cpuUsagePercent = some cpu) :
    (ResourceAction.resourceAlert RType.cpu cpu cfg.cpuThreshold (some cfg.cpuDurationMinutes)
        ∈ (checkResources cfg now metrics st).2)
      ↔ (Int.ofNat ((checkResources cfg now metrics st).1.cpuHistory.filter
            (fun h => h.timestamp ≥ now - cfg.cpuDurationMinutes * 60 * 1000)).length
            ≥ cfg.cpuDurationMinutes
        ∧ (∀ smp ∈ (checkResources cfg now metrics st).1.cpuHistory.filter
            (fun h => h.timestamp ≥ now - cfg.cpuDurationMinutes * 60 * 1000),
            smp.value ≥ cfg.cpuThreshold)
        ∧ cpu ≥ cfg.cpuThreshold) := by
  have hfst : (checkResources cfg now metrics st).1.cpuHistory =
      (cpuSection cfg now (some cpu) st.cpuHistory).1 := by
    simp only [checkResources, hcpu]
  rw [hfst, cpuSection_fst]
  simp only [checkResources, hcpu, List.mem_append]
  constructor
  · rintro ((((((h | h) | h) | h) | h) | h) | h)
    · -- the CPU section itself
      simp only [cpuSection] at h
      split at h
      · rename_i hcond
        refine ⟨hcond.1, ?_, hcond.2.2⟩
        intro smp hsmp
        have hlen := hcond.2.1
        rw [show (fun h : CpuSample =>
              decide (h.timestamp ≥ now - cfg.cpuDurationMinutes * 60 * 1000
                ∧ h.value ≥ cfg.cpuThreshold)) =
            (fun h : CpuSample =>
              decide (h.value ≥ cfg.cpuThreshold) &&
              decide (h.timestamp ≥ now - cfg.cpuDurationMinutes * 60 * 1000))
            from by funext x; rw [Bool.decide_and]; exact Bool.and_comm _ _] at hlen
        rw [← List.filter_filter] at hlen
        have := List.filter_length_eq_length.mp hlen smp hsmp
        simpa using this
      · simp at h
    · obtain ⟨m, hm⟩ := memorySection_shape cfg metrics.memoryUsagePercent _ h
      simp at hm
    · obtain ⟨d, hd⟩ := diskSection_shape cfg metrics.diskUsagePercent _ h
      simp at hd
    · obtain ⟨r, hr⟩ := responseTimeSection_shape cfg metrics.averageResponseTimeMs _ h
      simp at hr
    · obtain ⟨hd, hh⟩ := blockSyncSection_shape cfg metrics.heightDifference _ h
      simp at hh
    · obtain ⟨r, hr⟩ := arnsCacheSection_shape cfg metrics.arnsCacheHitRate _ h
      simp at hr
    · obtain ⟨r, t, hrt⟩ := errorRateSection_shape cfg now st.previousMetrics
        metrics.arnsErrors metrics.httpRequestsTotal st.errorRateHistory _ h
      simp at hrt
  · rintro ⟨hlen, hall, hcur⟩
    left; left; left; left; left; left
    simp only [cpuSection]
    rw [if_pos]
    · simp
    · refine ⟨hlen, ?_, hcur⟩
      rw [show (fun h : CpuSample =>
            decide (h.timestamp ≥ now - cfg.cpuDurationMinutes * 60 * 1000
              ∧ h.value ≥ cfg.cpuThreshold)) =
          (fun h : CpuSample =>
            decide (h.value ≥ cfg.cpuThreshold) &&
            decide (h.timestamp ≥ now - cfg.cpuDurationMinutes * 60 * 1000))
          from by funext x; rw [Bool.decide_and]; exact Bool.and_comm _ _]
      rw [← List.filter_filter]
      refine List.filter_length_eq_length.mpr ?_
      intro smp hsmp
      simpa using hall smp hsmp

/-- Witness: five one-per-minute samples at 85-91% against an 80% threshold
over five minutes fire the sustained-CPU alert. -/
theorem checkResources_cpu_alert_iff_witness :
    (ResourceAction.resourceAlert RType.cpu 91 80 (some 5)
        ∈ (checkResources
            { cpuThreshold := 80, cpuDurationMinutes := 5, memoryThreshold := 85,
              diskThreshold := 90, responseTimeThreshold := 2000,
              blockSyncLagThreshold := 100, arnsCacheHitRateThreshold := 50,
              errorRateThreshold := 5, errorRateMinRequests := 100,
              notSelectedEpochsThreshold := 5, lowObserverWeightThreshold := 1 }
            240000
            { cpuUsagePercent := some 91, memoryUsagePercent := none,
              diskUsagePercent := none, averageResponseTimeMs := none,
              heightDifference := none, lastHeightImported := none,
              currentNetworkHeight := none, arnsCacheHitRate := none,
              arnsErrors := none, httpRequestsTotal := none, arnsResolutions := none }
            { cpuHistory := [{ value := 85, timestamp := 0 }, { value := 86, timestamp := 60000 },
                { value := 84, timestamp := 120000 }, { value := 90, timestamp := 180000 }],
              errorRateHistory := [], previousMetrics := none }).2) := by
  rw [checkResources_cpu_alert_iff _ _ _ _ 91 rfl]
  decide

/-- Every CPU-section action is a cpu resource alert. -/
theorem cpuSection_shape (cfg : AlertsConfig) (now : Int) (o : Option ℚ)
    (hist : List CpuSample) (a : ResourceAction)
    (h : a ∈ (cpuSection cfg now o hist).2) :
    ∃ v, a = ResourceAction.resourceAlert RType.cpu v cfg.cpuThreshold
      (some cfg.cpuDurationMinutes) := by
  rcases o with _ | cpu
  · simp [cpuSection] at h
  · simp only [cpuSection] at h
    split at h
    · exact ⟨cpu, by simpa using h⟩
    · simp at h

/-- C6 counterexample: a block-sync alert fired through sendPerformanceAlert
at twice its threshold (well above 1.2x) still carries the fixed
'PERFORMANCE DEGRADATION' severity headline, not CRITICAL. -/
theorem block_sync_severity_cex :
    ((sendPerformanceAlert 1000 5000 PType.block_sync 200 100 initialBotState).2 =
      some { severityText := "PERFORMANCE DEGRADATION", current := 200, threshold := 100 })
    ∧ ((200 : ℚ) ≥ 100 * 1.2)
    ∧ "PERFORMANCE DEGRADATION" ≠ "CRITICAL" := by
  refine ⟨?_, by norm_num, by decide⟩
  simp only [sendPerformanceAlert, initialBotState]
  norm_num

/-- C6 (amended): block-sync lag alerts fire exactly when heightDifference is
strictly above blockSyncLagThreshold; the 1.2x hysteresis severity rule holds
for resource alerts (critical exactly when value is at least 1.2 times the
threshold); block-sync alerts, dispatched as performance alerts, always carry
the fixed 'PERFORMANCE DEGRADATION' severity instead. -/
theorem block_sync_and_severity (cfg : AlertsConfig) (now cooldown now2 : Int)
    (metrics : Metrics) (st : ResourceMonState) (hd v thr cur pthr : ℚ) (rtype : RType)
    (ptype : PType) (s : BotState) (msg : ResourceMsg) (pmsg : PerfMsg) :
    (metrics.heightDifference = some hd →
      (ResourceAction.performanceAlert PType.block_sync hd cfg.blockSyncLagThreshold
          ∈ (checkResources cfg now metrics st).2 ↔ hd > cfg.blockSyncLagThreshold))
    ∧ ((sendResourceAlert cooldown now2 rtype v thr s).2 = some msg →
        (msg.severityText = "CRITICAL" ↔ v ≥ thr * 1.2))
    ∧ ((sendPerformanceAlert cooldown now2 ptype cur pthr s).2 = some pmsg →
        pmsg.severityText = "PERFORMANCE DEGRADATION") := by
  refine ⟨?_, ?_, ?_⟩
  · intro hhd
    simp only [checkResources, List.mem_append]
    constructor
    · rintro ((((((h | h) | h) | h) | h) | h) | h)
      · obtain ⟨v2, hv⟩ := cpuSection_shape cfg now metrics.cpuUsagePercent st.cpuHistory _ h
        simp at hv
      · obtain ⟨m, hm⟩ := memorySection_shape cfg metrics.memoryUsagePercent _ h
        simp at hm
      · obtain ⟨d, hdk⟩ := diskSection_shape cfg metrics.diskUsagePercent _ h
        simp at hdk
      · obtain ⟨r, hr⟩ := responseTimeSection_shape cfg metrics.averageResponseTimeMs _ h
        simp at hr
      · simp only [blockSyncSection, hhd] at h
        split at h
        · rename_i hcond
          exact hcond
        · simp at h
      · obtain ⟨r, hr⟩ := arnsCacheSection_shape cfg metrics.arnsCacheHitRate _ h
        simp at hr
      · obtain ⟨r, t, hrt⟩ := errorRateSection_shape cfg now st.previousMetrics
          metrics.arnsErrors metrics.httpRequestsTotal st.errorRateHistory _ h
        simp at hrt
    · intro hgt
      left; left; right
      simp only [blockSyncSection, hhd]
      rw [if_pos hgt]
      simp
  · intro hsome
    simp only [sendResourceAlert] at hsome
    split at hsome
    · cases hsome
    · cases hsome
      simp only [resourceSeverityText]
      split <;> rename_i hcrit
      · simpa using hcrit
      · constructor
        · intro hw
          exact absurd hw (by decide)
        · intro hv
          exact absurd hv hcrit
  · intro hsome
    simp only [sendPerformanceAlert] at hsome
    split at hsome
    · cases hsome
    · cases hsome
      rfl

/-- A concrete alert configuration used by witnesses. -/
def cfgW : AlertsConfig :=
  { cpuThreshold := 80, cpuDurationMinutes := 5, memoryThreshold := 85,
    diskThreshold := 90, responseTimeThreshold := 2000,
    blockSyncLagThreshold := 100, arnsCacheHitRateThreshold := 50,
    errorRateThreshold := 5, errorRateMinRequests := 100,
    notSelectedEpochsThreshold := 5, lowObserverWeightThreshold := 1 }

/-- A metrics fetch where every field is unavailable. -/
def metricsNone : Metrics :=
  { cpuUsagePercent := none, memoryUsagePercent := none,
    diskUsagePercent := none, averageResponseTimeMs := none,
    heightDifference := none, lastHeightImported := none,
    currentNetworkHeight := none, arnsCacheHitRate := none,
    arnsErrors := none, httpRequestsTotal := none, arnsResolutions := none }

/-- The cold-started resource monitor state. -/
def stEmpty : ResourceMonState :=
  { cpuHistory := [], errorRateHistory := [], previousMetrics := none }

/-- Witness for the block-sync/severity theorem at concrete inputs. -/
theorem block_sync_and_severity_witness :
    (ResourceAction.performanceAlert PType.block_sync 150 100
        ∈ (checkResources cfgW 1000
            { metricsNone with heightDifference := some 150 } stEmpty).2)
    ∧ ((96 : ℚ) ≥ 80 * 1.2)
    ∧ ((sendPerformanceAlert 1000 5000 PType.arns_cache 30 50 initialBotState).2.map
        (fun pmsg => pmsg.severityText) = some "PERFORMANCE DEGRADATION") := by
  have hr : (sendResourceAlert 1000 5000 RType.cpu 96 80 initialBotState).2 =
      some { severityText := "CRITICAL", value := 96, threshold := 80 } := by
    simp only [sendResourceAlert, initialBotState, resourceSeverityText]
    norm_num
  have hp : (sendPerformanceAlert 1000 5000 PType.arns_cache 30 50 initialBotState).2 =
      some { severityText := "PERFORMANCE DEGRADATION", current := 30, threshold := 50 } := by
    decide
  refine ⟨?_, ?_, ?_⟩
  · exact ((block_sync_and_severity cfgW 1000 1000 5000
      { metricsNone with heightDifference := some 150 } stEmpty 150 96 80 30 50 RType.cpu
      PType.arns_cache initialBotState
      { severityText := "CRITICAL", value := 96, threshold := 80 }
      { severityText := "PERFORMANCE DEGRADATION", current := 30, threshold := 50 }).1
      rfl).mpr (by norm_num [cfgW])
  · exact ((block_sync_and_severity cfgW 1000 1000 5000
      { metricsNone with heightDifference := some 150 } stEmpty 150 96 80 30 50 RType.cpu
      PType.arns_cache initialBotState _
      { severityText := "PERFORMANCE DEGRADATION", current := 30, threshold := 50 }).2.1
      hr).mp rfl
  · rw [hp]
    rfl

/-- A concrete alert configuration with a 1% error-rate threshold and a
100-request minimum, used around the counter-reset scenario. -/
def cfgE : AlertsConfig :=
  { cpuThreshold := 80, cpuDurationMinutes := 5, memoryThreshold := 85,
    diskThreshold := 90, responseTimeThreshold := 2000,
    blockSyncLagThreshold := 100, arnsCacheHitRateThreshold := 50,
    errorRateThreshold := 1, errorRateMinRequests := 100,
    notSelectedEpochsThreshold := 5, lowObserverWeightThreshold := 1 }

/-- A one-per-minute metrics fetch carrying only the two counters. -/
def inpE (t : Int) (e r : ℚ) : ResourceInput :=
  { now := t
    metrics := { metricsNone with arnsErrors := some e, httpRequestsTotal := some r } }

/-- C1 counterexample: running the spec's end-to-end scenario (errors deltas
5, 3, -2, 4 over 100 requests each) through the resource check, the window is
cleared at the -2 reset but the reset cycle itself pushes a clamped sample
(0 errors, 100 requests), so the final window is that sample plus the 4/100
sample and the next aggregate is 4/200 = 2%, not the 4% the claim's
"fresh from the 4/100 sample only" behaviour would give. -/
theorem error_rate_reset_window_cex :
    ((runResourceChecks cfgE [inpE 0 0 0, inpE 60000 5 100, inpE 120000 8 200,
        inpE 180000 6 300, inpE 240000 10 400] stEmpty).1.errorRateHistory =
      [{ errors := 0, requests := 100, timestamp := 180000 },
       { errors := 4, requests := 100, timestamp := 240000 }])
    ∧ ([{ errors := 0, requests := 100, timestamp := 180000 },
        { errors := 4, requests := 100, timestamp := 240000 }] ≠
       ([{ errors := 4, requests := 100, timestamp := 240000 }] : List ErrSample))
    ∧ (ResourceAction.performanceAlert PType.error_rate 2 1
        ∈ (runResourceChecks cfgE [inpE 0 0 0, inpE 60000 5 100, inpE 120000 8 200,
            inpE 180000 6 300, inpE 240000 10 400] stEmpty).2)
    ∧ (2 : ℚ) ≠ 4 := by
  refine ⟨?_, by decide, ?_, by norm_num⟩ <;>
    norm_num [runResourceChecks, checkResources, cpuSection, memorySection, diskSection,
      responseTimeSection, blockSyncSection, arnsCacheSection, errorRateSection,
      metricsNone, stEmpty, cfgE, inpE, max_def]

/-- A reset cycle with a positive requests delta: the section's window
becomes exactly the clamped (0 errors, requestsDelta) sample, and any action
it emits is an error-rate alert reporting a rate of 0. -/
theorem errorRateSection_reset_pos (cfg : AlertsConfig) (now : Int) (prev : PrevMetrics)
    (errs reqs : ℚ) (hist : List ErrSample)
    (hE : errs - prev.errors.getD 0 < 0) (hR : reqs - prev.totalRequests.getD 0 > 0) :
    ((errorRateSection cfg now (some prev) (some errs) (some reqs) hist).1 =
      [{ errors := 0, requests := reqs - prev.totalRequests.getD 0, timestamp := now }])
    ∧ ∀ a ∈ (errorRateSection cfg now (some prev) (some errs) (some reqs) hist).2,
        a = ResourceAction.performanceAlert PType.error_rate 0 cfg.errorRateThreshold := by
  simp only [errorRateSection]
  rw [if_pos (Or.inl hE), max_eq_right (le_of_lt hE), max_eq_left (le_of_lt hR),
    if_pos hR]
  simp only [List.nil_append, List.filter_cons, List.filter_nil]
  rw [if_pos (show decide ((now : Int) ≥ now - 10 * 60 * 1000) = true from by simp)]
  simp only [List.map_cons, List.map_nil, List.sum_cons, List.sum_nil, add_zero,
    zero_div, zero_mul]
  constructor
  · split
    · split <;> rfl
    · rfl
  · intro a ha
    split at ha
    · split at ha
      · simpa using ha
      · simp at ha
    · simp at ha

/-- A reset cycle whose requests delta is not positive: the section clears
the window and emits nothing. -/
theorem errorRateSection_reset_nonpos (cfg : AlertsConfig) (now : Int) (prev : PrevMetrics)
    (errs reqs : ℚ) (hist : List ErrSample)
    (hreset : errs - prev.errors.getD 0 < 0 ∨ reqs - prev.totalRequests.getD 0 < 0)
    (hR : ¬ reqs - prev.totalRequests.getD 0 > 0) :
    errorRateSection cfg now (some prev) (some errs) (some reqs) hist = ([], []) := by
  simp only [errorRateSection]
  rw [if_pos hreset, max_eq_right (le_of_not_lt hR), if_neg (lt_irrefl 0)]

/-- C1 (amended): on a counter reset (either raw delta negative) the
smoothing window is cleared before any aggregation — no pre-reset sample
survives — and the clamped deltas keep every rate non-negative; but when the
reset cycle's requests delta is positive it pushes a (0 errors, requestsDelta)
sample, so the post-reset window is exactly that sample rather than empty, and
the next aggregate starts from it instead of from the first post-reset sample
only. -/
theorem error_rate_reset_clears (cfg : AlertsConfig) (now : Int) (metrics : Metrics)
    (st : ResourceMonState) (prev : PrevMetrics) (errs reqs : ℚ)
    (hp : st.previousMetrics = some prev)
    (he : metrics.arnsErrors = some errs)
    (hr : metrics.httpRequestsTotal = some reqs)
    (hreset : errs - prev.errors.getD 0 < 0 ∨ reqs - prev.totalRequests.getD 0 < 0) :
    ((checkResources cfg now metrics st).1.errorRateHistory =
      (if reqs - prev.totalRequests.getD 0 > 0 then
        [{ errors := 0, requests := reqs - prev.totalRequests.getD 0, timestamp := now }]
      else []))
    ∧ (∀ r t, ResourceAction.performanceAlert PType.error_rate r t
        ∈ (checkResources cfg now metrics st).2 → r ≥ 0) := by
  constructor
  · show (errorRateSection cfg now st.previousMetrics metrics.arnsErrors
        metrics.httpRequestsTotal st.errorRateHistory).1 = _
    rw [hp, he, hr]
    by_cases hR : reqs - prev.totalRequests.getD 0 > 0
    · have hE : errs - prev.errors.getD 0 < 0 := by
        rcases hreset with hE | hRneg
        · exact hE
        · linarith
      rw [(errorRateSection_reset_pos cfg now prev errs reqs st.errorRateHistory hE hR).1,
        if_pos hR]
    · rw [errorRateSection_reset_nonpos cfg now prev errs reqs st.errorRateHistory hreset hR,
        if_neg hR]
  · intro r t hmem
    simp only [checkResources, List.mem_append] at hmem
    rcases hmem with ((((((h | h) | h) | h) | h) | h) | h)
    · obtain ⟨v, hv⟩ := cpuSection_shape cfg now metrics.cpuUsagePercent st.cpuHistory _ h
      simp at hv
    · obtain ⟨m, hm⟩ := memorySection_shape cfg metrics.memoryUsagePercent _ h
      simp at hm
    · obtain ⟨d, hd⟩ := diskSection_shape cfg metrics.diskUsagePercent _ h
      simp at hd
    · obtain ⟨rr, hrr⟩ := responseTimeSection_shape cfg metrics.averageResponseTimeMs _ h
      simp at hrr
    · obtain ⟨hd2, hh⟩ := blockSyncSection_shape cfg metrics.heightDifference _ h
      simp at hh
    · obtain ⟨rr, hrr⟩ := arnsCacheSection_shape cfg metrics.arnsCacheHitRate _ h
      simp at hrr
    · rw [hp, he, hr] at h
      by_cases hR : reqs - prev.totalRequests.getD 0 > 0
      · have hE : errs - prev.errors.getD 0 < 0 := by
          rcases hreset with hE | hRneg
          · exact hE
          · linarith
        have heq := (errorRateSection_reset_pos cfg now prev errs reqs
          st.errorRateHistory hE hR).2 _ h
        simp only [ResourceAction.performanceAlert.injEq] at heq
        rw [heq.2.1]
      · rw [errorRateSection_reset_nonpos cfg now prev errs reqs st.errorRateHistory
          hreset hR] at h
        simp at h

/-- The previous-counters snapshot right before the spec scenario's reset
cycle. -/
def prevW : PrevMetrics :=
  { timestamp := 120000, blockHeight := none, arnsResolutions := none,
    errors := some 8, totalRequests := some 200 }

/-- The metrics fetch of the reset cycle (counter went from 8 down to 6). -/
def mResetW : Metrics :=
  { metricsNone with arnsErrors := some 6, httpRequestsTotal := some 300 }

/-- The monitor state right before the reset cycle: two pre-reset window
samples and the prevW snapshot. -/
def stResetW : ResourceMonState :=
  { cpuHistory := [],
    errorRateHistory := [{ errors := 5, requests := 100, timestamp := 60000 },
      { errors := 3, requests := 100, timestamp := 120000 }],
    previousMetrics := some prevW }

/-- Witness for the reset-clears theorem at the spec's reset cycle. -/
theorem error_rate_reset_clears_witness :
    (checkResources cfgE 180000 mResetW stResetW).1.errorRateHistory =
      [{ errors := 0, requests := 100, timestamp := 180000 }] := by
  have h := (error_rate_reset_clears cfgE 180000 mResetW stResetW prevW 6 300
    rfl rfl rfl (by left; norm_num [prevW])).1
  rw [h]
  norm_num [prevW]

/-! ## Observer section lemmas -/

/-- Every epoch-transition action is an informational "epoch" alert. -/
theorem epochTransitionSection_shape (ec : Bool) (prevStats currStats : Option EpochStats)
    (a : ObserverAction) (h : a ∈ epochTransitionSection ec prevStats currStats) :
    ∃ m, a = ObserverAction.alert Sev.info m "epoch" := by
  simp only [epochTransitionSection] at h
  split at h
  · simp only [List.mem_append] at h
    rcases h with h | h
    · rcases prevStats with _ | ps
      · simp at h
      · exact ⟨_, by simpa using h⟩
    · rcases currStats with _ | cs
      · simp at h
      · exact ⟨_, by simpa using h⟩
  · simp at h

/-- The report-failed alert appears in the report section exactly when the
gateway is selected without a submitted report, the floored hours remaining
have reached 0, and the epoch index differs from the last recorded check. -/
theorem reportSection_fail_mem_iff (now : Int) (status : ObserverStatus)
    (previousEpoch : Option Int) (v t : Option ℚ) (ep : Option Int) (add : Option String) :
    (ObserverAction.observerAlert OType.report_failed v t ep add
        ∈ reportSection now status previousEpoch)
      ↔ (status.isSelectedAsObserver = true ∧ status.hasSubmittedReport.getD false = false
        ∧ Int.fdiv (match status.epochEndTimestamp with
            | some e => if e ≠ 0 then e - now else 0
            | none => 0) 3600000 ≤ 0
        ∧ previousEpoch ≠ some status.epochIndex
        ∧ v = none ∧ t = none ∧ ep = some status.epochIndex
        ∧ add = some "Epoch deadline has passed") := by
  simp only [reportSection]
  split
  · rename_i hsel
    simp only [List.mem_append]
    constructor
    · rintro (h | h)
      · split at h <;> simp at h
      · split at h
        · rename_i hc
          simp only [List.mem_singleton, ObserverAction.observerAlert.injEq] at h
          exact ⟨hsel.1, hsel.2, hc.1, hc.2, h.2.1, h.2.2.1, h.2.2.2.1, h.2.2.2.2⟩
        · simp at h
    · rintro ⟨h1, h2, hle, hne, hv, ht, hep, hadd⟩
      right
      rw [if_pos ⟨hle, hne⟩]
      subst hv
      subst ht
      subst hep
      subst hadd
      simp
  · rename_i hsel
    constructor
    · intro h
      exact absurd h (List.not_mem_nil _)
    · rintro ⟨h1, h2, hrest⟩
      exact absurd ⟨h1, h2⟩ hsel

/-- Every selection-section action is a not_selected observer alert. -/
theorem selectionSection_shape (cfg : AlertsConfig) (now : Int) (status : ObserverStatus)
    (previousEpoch : Option Int) (history : List SelectionSample) (a : ObserverAction)
    (h : a ∈ (selectionSection cfg now status previousEpoch history).2) :
    ∃ v t add, a = ObserverAction.observerAlert OType.not_selected v t none add := by
  simp only [selectionSection] at h
  repeat' split at h
  all_goals first
    | exact absurd h (List.not_mem_nil a)
    | exact ⟨_, _, _, by simpa using h⟩

/-- Every weight-section action is a low_weight observer alert. -/
theorem weightSection_shape (cfg : AlertsConfig) (ow : Option ℚ) (a : ObserverAction)
    (h : a ∈ weightSection cfg ow) :
    ∃ v t add, a = ObserverAction.observerAlert OType.low_weight v t none add := by
  rcases ow with _ | w
  · simp [weightSection] at h
  · simp only [weightSection] at h
    split at h
    · exact ⟨_, _, _, by simpa using h⟩
    · simp at h

/-- Lifting the report-failed characterization to a full observer check. -/
theorem checkObserver_report_failed_iff (cfg : AlertsConfig) (now : Int)
    (status : ObserverStatus) (prevStats currStats : Option EpochStats)
    (st : ObserverMonState) (v t : Option ℚ) (ep : Option Int) (add : Option String) :
    (ObserverAction.observerAlert OType.report_failed v t ep add
        ∈ (checkObserver cfg now status prevStats currStats st).2)
      ↔ (status.isSelectedAsObserver = true ∧ status.hasSubmittedReport.getD false = false
        ∧ Int.fdiv (match status.epochEndTimestamp with
            | some e => if e ≠ 0 then e - now else 0
            | none => 0) 3600000 ≤ 0
        ∧ st.lastObserverCheck.map (fun lc => lc.epochIndex) ≠ some status.epochIndex
        ∧ v = none ∧ t = none ∧ ep = some status.epochIndex
        ∧ add = some "Epoch deadline has passed") := by
  simp only [checkObserver, List.mem_append]
  constructor
  · rintro (((h | h) | h) | h)
    · obtain ⟨m, hm⟩ := epochTransitionSection_shape _ prevStats currStats _ h
      simp at hm
    · exact (reportSection_fail_mem_iff now status _ v t ep add).mp h
    · obtain ⟨v2, t2, add2, hs⟩ := selectionSection_shape cfg now status _
        st.observerSelectionHistory _ h
      simp at hs
    · obtain ⟨v2, t2, add2, hs⟩ := weightSection_shape cfg status.observerWeight _ h
      simp at hs
  · intro hc
    left; left; right
    exact (reportSection_fail_mem_iff now status _ v t ep add).mpr hc

/-- The lastObserverCheck snapshot written by every observer check. -/
theorem checkObserver_lastCheck (cfg : AlertsConfig) (now : Int) (status : ObserverStatus)
    (prevStats currStats : Option EpochStats) (st : ObserverMonState) :
    (checkObserver cfg now status prevStats currStats st).1.lastObserverCheck =
      some { epochIndex := status.epochIndex
             wasSelected := status.isSelectedAsObserver
             hadReport := status.hasSubmittedReport.getD false } := rfl

/-- Once the recorded epoch matches, a run of checks that stay in that epoch
never emits a report-failed alert. -/
theorem runObserverChecks_no_refire (cfg : AlertsConfig) (e : Int)
    (inputs : List ObserverInput) :
    ∀ (st : ObserverMonState),
      st.lastObserverCheck.map (fun lc => lc.epochIndex) = some e →
      (∀ inp ∈ inputs, inp.status.epochIndex = e) →
      ∀ (v t : Option ℚ) (ep : Option Int) (add : Option String),
        ObserverAction.observerAlert OType.report_failed v t ep add
          ∉ (runObserverChecks cfg inputs st).2 := by
  induction inputs with
  | nil =>
    intro st hst hin v t ep add h
    simp [runObserverChecks] at h
  | cons inp rest ih =>
    intro st hst hin v t ep add h
    simp only [runObserverChecks, List.mem_append] at h
    rcases h with h | h
    · have hcond := (checkObserver_report_failed_iff cfg inp.now inp.status inp.prevStats
        inp.currStats st v t ep add).mp h
      exact hcond.2.2.2.1 (by rw [hst, hin inp (List.mem_cons_self _ _)])
    · refine ih _ ?_ (fun i hi => hin i (List.mem_cons_of_mem _ hi)) v t ep add h
      rw [checkObserver_lastCheck]
      simp [hin inp (List.mem_cons_self _ _)]

/-- C7: the distinct report-failed alert fires in an observer check exactly
when the gateway is selected without a submitted report, the floored hours
remaining to epoch end have reached 0, and the epoch index changed since the
last recorded check; every check records the current epoch index, and a run
of subsequent checks within the same epoch never re-fires the alert. -/
theorem report_failed_once (cfg : AlertsConfig) (now : Int) (status : ObserverStatus)
    (prevStats currStats : Option EpochStats) (st : ObserverMonState)
    (e : Int) (inputs : List ObserverInput) (st2 : ObserverMonState) :
    ((ObserverAction.observerAlert OType.report_failed none none (some status.epochIndex)
        (some "Epoch deadline has passed")
        ∈ (checkObserver cfg now status prevStats currStats st).2)
      ↔ (status.isSelectedAsObserver = true ∧ status.hasSubmittedReport.getD false = false
        ∧ Int.fdiv (match status.epochEndTimestamp with
            | some e2 => if e2 ≠ 0 then e2 - now else 0
            | none => 0) 3600000 ≤ 0
        ∧ st.lastObserverCheck.map (fun lc => lc.epochIndex) ≠ some status.epochIndex))
    ∧ ((checkObserver cfg now status prevStats currStats st).1.lastObserverCheck =
        some { epochIndex := status.epochIndex
               wasSelected := status.isSelectedAsObserver
               hadReport := status.hasSubmittedReport.getD false })
    ∧ (st2.lastObserverCheck.map (fun lc => lc.epochIndex) = some e →
        (∀ inp ∈ inputs, inp.status.epochIndex = e) →
        ObserverAction.observerAlert OType.report_failed none none (some e)
            (some "Epoch deadline has passed")
          ∉ (runObserverChecks cfg inputs st2).2) := by
  refine ⟨?_, checkObserver_lastCheck cfg now status prevStats currStats st, ?_⟩
  · exact Iff.trans
      (checkObserver_report_failed_iff cfg now status prevStats currStats st none none
        (some status.epochIndex) (some "Epoch deadline has passed"))
      ⟨fun ⟨a, b, c, d, _⟩ => ⟨a, b, c, d⟩, fun ⟨a, b, c, d⟩ => ⟨a, b, c, d, rfl, rfl, rfl, rfl⟩⟩
  · intro hst hin
    exact runObserverChecks_no_refire cfg e inputs st2 hst hin none none (some e)
      (some "Epoch deadline has passed")

/-- A concrete observer status: selected for epoch 5, no report, epoch ended
long ago relative to the check time used below. -/
def statusW : ObserverStatus :=
  { epochIndex := 5, isSelectedAsObserver := true, hasSubmittedReport := some false,
    epochEndTimestamp := some 1000, observerWeight := none }

/-- Observer monitor state whose last recorded check was epoch 4. -/
def stObsW : ObserverMonState :=
  { observerSelectionHistory := [],
    lastObserverCheck := some { epochIndex := 4, wasSelected := true, hadReport := false } }

/-- Witness: at the first check of epoch 5 after the deadline the fatal alert
fires once, and a follow-up check still in epoch 5 does not re-fire it. -/
theorem report_failed_once_witness :
    (ObserverAction.observerAlert OType.report_failed none none (some 5)
        (some "Epoch deadline has passed")
      ∈ (checkObserver cfgW 3601000 statusW none none stObsW).2)
    ∧ (ObserverAction.observerAlert OType.report_failed none none (some 5)
        (some "Epoch deadline has passed")
      ∉ (runObserverChecks cfgW
          [{ now := 3661000, status := statusW, prevStats := none, currStats := none }]
          (checkObserver cfgW 3601000 statusW none none stObsW).1).2) := by
  constructor
  · exact (report_failed_once cfgW 3601000 statusW none none stObsW 5 [] stObsW).1.mpr
      (by refine ⟨rfl, rfl, by decide, by decide⟩)
  · exact (report_failed_once cfgW 3601000 statusW none none stObsW 5
      [{ now := 3661000, status := statusW, prevStats := none, currStats := none }]
      (checkObserver cfgW 3601000 statusW none none stObsW).1).2.2
      (by rw [checkObserver_lastCheck]; rfl)
      (by intro i hi; simp at hi; rw [hi]; rfl)

/-- Whether a dispatcher call is an informational generic alert. -/
def isInfoAlert : ObserverAction → Bool
  | ObserverAction.alert Sev.info _ _ => true
  | _ => false

/-- The report section never produces informational alerts. -/
theorem reportSection_no_info (now : Int) (status : ObserverStatus)
    (previousEpoch : Option Int) :
    (reportSection now status previousEpoch).filter isInfoAlert = [] := by
  rw [List.filter_eq_nil_iff]
  intro a ha
  simp only [reportSection] at ha
  split at ha
  · simp only [List.mem_append] at ha
    rcases ha with ha | ha
    · split at ha
      · simp only [List.mem_singleton] at ha
        subst ha
        simp [isInfoAlert]
      · simp at ha
    · split at ha
      · simp only [List.mem_singleton] at ha
        subst ha
        simp [isInfoAlert]
      · simp at ha
  · simp at ha

/-- The selection section never produces informational alerts. -/
theorem selectionSection_no_info (cfg : AlertsConfig) (now : Int) (status : ObserverStatus)
    (previousEpoch : Option Int) (history : List SelectionSample) :
    (selectionSection cfg now status previousEpoch history).2.filter isInfoAlert = [] := by
  rw [List.filter_eq_nil_iff]
  intro a ha
  obtain ⟨v, t, add, hs⟩ := selectionSection_shape cfg now status previousEpoch history a ha
  subst hs
  simp [isInfoAlert]

/-- The weight section never produces informational alerts. -/
theorem weightSection_no_info (cfg : AlertsConfig) (ow : Option ℚ) :
    (weightSection cfg ow).filter isInfoAlert = [] := by
  rw [List.filter_eq_nil_iff]
  intro a ha
  obtain ⟨v, t, add, hs⟩ := weightSection_shape cfg ow a ha
  subst hs
  simp [isInfoAlert]

/-- C8: when the epoch index changes from N to N+1 between two consecutive
observer checks and both statistics fetches succeed, the check produces
exactly two informational alerts — the "ended" summary built from the
previous epoch's stats and the "started" summary built from the new epoch's
stats — whose headlines name epoch N as Ended and epoch N+1 as Started. -/
theorem epoch_transition_two_infos (cfg : AlertsConfig) (now : Int)
    (status : ObserverStatus) (st : ObserverMonState) (N : Int) (ps cs : EpochStats)
    (hprev : st.lastObserverCheck.map (fun lc => lc.epochIndex) = some N)
    (hcur : status.epochIndex = N + 1)
    (hps : ps.epochIndex = N) (hcs : cs.epochIndex = N + 1) :
    ((checkObserver cfg now status (some ps) (some cs) st).2.filter isInfoAlert =
      [ObserverAction.alert Sev.info (formatEpochChangeMessage EpochEvent.ended ps) "epoch",
       ObserverAction.alert Sev.info (formatEpochChangeMessage EpochEvent.started cs) "epoch"])
    ∧ (epochChangeLines EpochEvent.ended ps).headD "" =
        "✅ *Epoch " ++ toString N ++ " Ended*"
    ∧ (epochChangeLines EpochEvent.started cs).headD "" =
        "🚀 *Epoch " ++ toString (N + 1) ++ " Started*" := by
  refine ⟨?_, ?_, ?_⟩
  · simp only [checkObserver, List.filter_append, hprev]
    rw [reportSection_no_info, selectionSection_no_info, weightSection_no_info]
    have hch : (decide (status.epochIndex ≠ N)) = true := by
      simp [hcur]
    simp only [epochTransitionSection, hch, if_true]
    simp [isInfoAlert, List.filter_cons]
  · simp only [epochChangeLines, hps]
    simp
    simp only [String.append_assoc]
    congr 1
  · simp only [epochChangeLines, hcs]
    simp
    simp only [String.append_assoc]
    congr 1

/-- Empty epoch statistics for an epoch index: every field unavailable. -/
def epochStatsW (i : Int) : EpochStats :=
  { epochIndex := i, startTimestamp := none, endTimestamp := none, totalObservers := none,
    observationCount := none, observationPercentage := none, totalEligibleRewards := none,
    isDistributed := false, totalDistributedRewards := none, distributionPercentage := none,
    gatewaysPassed := none, gatewaysFailed := none, passPercentage := none,
    failPercentage := none }

/-- Witness: the 4 to 5 epoch transition produces exactly the two summaries. -/
theorem epoch_transition_two_infos_witness :
    ((checkObserver cfgW 1000 statusW (some (epochStatsW 4)) (some (epochStatsW 5))
        stObsW).2.filter isInfoAlert =
      [ObserverAction.alert Sev.info
        (formatEpochChangeMessage EpochEvent.ended (epochStatsW 4)) "epoch",
       ObserverAction.alert Sev.info
        (formatEpochChangeMessage EpochEvent.started (epochStatsW 5)) "epoch"])
    ∧ (epochChangeLines EpochEvent.ended (epochStatsW 4)).headD "" =
        "✅ *Epoch " ++ toString (4 : Int) ++ " Ended*"
    ∧ (epochChangeLines EpochEvent.started (epochStatsW 5)).headD "" =
        "🚀 *Epoch " ++ toString (4 + 1 : Int) ++ " Started*" := by
  exact epoch_transition_two_infos cfgW 1000 statusW stObsW 4 (epochStatsW 4)
    (epochStatsW 5) rfl (by norm_num [statusW]) rfl (by norm_num [epochStatsW])

end Ario
